import Mathlib

/-!
Shallow embedding of the validation-rule compiler of this repository:

* `src/validation/buildYupSchema.ts` — `buildYupSchema(configSection, definitions)`:
  `$ref` resolution against a definitions mapping, per-kind validator synthesis
  (string / number / date / permissive default), message templating, and the
  `noWeekendOrHoliday` custom rule;
* `src/validation/holidays.ts` — `isPublicHoliday` / `isWeekend` over the static
  2025 US holiday table;
* the rule documents of `wireTransferValidationConfig.json` /
  `validationDefinitions.json`, embedded as concrete constants.

Modelling decisions (each mirrors the JavaScript/yup semantics of the source):

* Candidate values are the raw values the form runtime hands to a field
  validator: a string, `null`, or `undefined` (`Value.vstr`, `Value.vnull`,
  `Value.vundef`).  The React form in this repository submits input values as
  strings, and the transforms in `buildYupSchema.ts` only distinguish strings,
  `null` and `undefined`.
* A validation outcome is `VResult.ok` or `VResult.fail kind message`, where
  `kind` is the name of the failing yup test exactly as the code creates it:
  `"required"` for the presence test, and the composite per-field test names
  `is-string-and-valid-<field>` / `is-number-and-valid-<field>` /
  `is-date-and-valid-<field>` for every other failure (yup attaches the test
  name, not the constraint, to the error it reports).
* Inside the per-field string test the code builds
  `yup.string().typeError(...).min(...).max(...).matches(...).oneOf(...)` and
  calls `validateSync`.  yup validates the type error and the `oneOf`
  whitelist as internal tests *before* the chained `min`/`max`/`matches`
  tests, and with `abortEarly` the first failing test in execution order wins;
  the embedding therefore checks `allowedValues` first, then `minLength`,
  `maxLength` and `pattern`.  The type check never fails for the string/number
  inputs above because yup casts them to strings before checking.
* JavaScript `String.prototype.replace` with a string pattern replaces only the
  first occurrence; `replaceFirst` models that.  `x || y` on message templates
  is `strOr` (empty strings are falsy).  `value.trim()` is `jsTrim` over the
  ASCII whitespace characters; field names and rule strings in this repository
  are ASCII, where Lean's and JavaScript's notions of length and case agree.
* `new RegExp(pattern)` / `regex.test(value)` are modelled by `compileRegex` /
  `regexTest` for the regular-expression subset the repository's rule documents
  use: literal characters, character classes with ranges, counted quantifiers
  `{n}` / `{n,m}`, and the `^` / `$` anchors.  `compileRegex p = none` models a
  pattern on which the `RegExp` constructor throws (e.g. an unclosed class).
* Dates are timezone-free calendar dates (`CalDate`); `parseISO` on the
  date-only strings this form uses is `parseDate`, which checks real calendar
  validity exactly as `date-fns` does.  A JavaScript `Date` object is `JSDate`:
  invalid, or a calendar date plus a time-of-day component; the
  `format(date, 'yyyy-MM-dd')`-and-reparse normalization in `isPublicHoliday`
  strips the time component.  `new Date()` at validation time enters the
  embedding as the `today : CalDate` parameter (its `startOfDay`).
* yup's number cast (`+string` after stripping whitespace) is `parseJsNumber`
  over plain decimal literals, returning a rational; the configured numeric
  bounds carry both their JSON source text (used by `String(...)` in messages)
  and their rational value (`JNum`).
-/

namespace WireSpec

/-! ### JavaScript string helpers -/

/-- JavaScript whitespace characters relevant to `trim` for this form's data. -/
def jsWs (c : Char) : Bool :=
  c == ' ' || c == '\t' || c == '\n' || c == '\r' || c == '\x0b' || c == '\x0c'

/-- Model of `String.prototype.trim`. -/
def jsTrim (s : String) : String :=
  String.mk (((s.data.dropWhile jsWs).reverse.dropWhile jsWs).reverse)

/-- Replace the first occurrence of `pat` in the character list. -/
def replaceFirstAux (pat repl : List Char) : List Char → List Char
  | [] => []
  | c :: cs =>
      if pat.isPrefixOf (c :: cs) then repl ++ (c :: cs).drop pat.length
      else c :: replaceFirstAux pat repl cs

/-- Model of `String.prototype.replace(pat, repl)` with a string pattern:
only the first occurrence is replaced.  (The templates this repository
substitutes are never empty, so the empty-pattern corner is irrelevant.) -/
def replaceFirst (s pat repl : String) : String :=
  String.mk (replaceFirstAux pat.data repl.data s.data)

/-- Model of JavaScript `x || y` on an optional message template: `undefined`
and the empty string both fall through to the default. -/
def strOr (o : Option String) (d : String) : String :=
  match o with
  | some s => if s == "" then d else s
  | none => d

/-- Model of `fieldName.replace(/([A-Z])/g, ' $1').toLowerCase()`:
a space is inserted before every ASCII uppercase letter, then the whole
string is lowercased. -/
def decamel (s : String) : String :=
  String.toLower (String.mk (s.data.foldr
    (fun c acc => if c.isUpper then ' ' :: c :: acc else c :: acc) []))

/-! ### Regular-expression subset (`new RegExp` / `RegExp.prototype.test`) -/

/-- An inclusive character range; a single literal character `c` is `c..c`. -/
structure RRange where
  lo : Char
  hi : Char
deriving DecidableEq, Repr

/-- A regex atom: a literal character or a character class. -/
inductive RAtom where
  | lit (c : Char)
  | cls (ranges : List RRange)
deriving DecidableEq, Repr

/-- An atom with its counted quantifier: repeat between `lo` and `hi` times
(an unquantified atom is `1..1`). -/
structure RPiece where
  atom : RAtom
  lo : Nat
  hi : Nat
deriving DecidableEq, Repr

/-- A compiled pattern: optional `^` / `$` anchors around a piece sequence. -/
structure Regex where
  anchS : Bool
  anchE : Bool
  pieces : List RPiece
deriving DecidableEq, Repr

/-- Characters with metacharacter meaning outside a class in the supported
subset; encountering one outside its supported position fails compilation. -/
def isRegexMeta (c : Char) : Bool :=
  (['^', '$', '[', ']', '(', ')', '{', '}', '|', '*', '+', '?', '\\', '.'] : List Char).contains c

/-- Numeric value of a digit list (digits guaranteed by construction). -/
def natVal (ds : List Char) : Nat :=
  ds.foldl (fun a c => a * 10 + (c.toNat - 48)) 0

/-- Parse an optional counted quantifier after an atom.
`none` = malformed quantifier (compilation fails);
`some (none, rest)` = no quantifier present. -/
def parseQuantifier (cs : List Char) : Option (Option (Nat × Nat) × List Char) :=
  match cs with
  | '{' :: rest =>
      let ds := rest.takeWhile Char.isDigit
      let after := rest.drop ds.length
      if ds.isEmpty then none
      else
        match after with
        | '}' :: rest2 => some (some (natVal ds, natVal ds), rest2)
        | ',' :: rest2 =>
            let ds2 := rest2.takeWhile Char.isDigit
            let after2 := rest2.drop ds2.length
            if ds2.isEmpty then none
            else
              match after2 with
              | '}' :: rest3 =>
                  if natVal ds ≤ natVal ds2 then some (some (natVal ds, natVal ds2), rest3)
                  else none
              | _ => none
        | _ => none
  | _ => some (none, cs)

/-- Parse the body of a character class up to the closing bracket. -/
def parseClass (fuel : Nat) (cs : List Char) (acc : List RRange) :
    Option (List RRange × List Char) :=
  match fuel with
  | 0 => none
  | fuel + 1 =>
      match cs with
      | [] => none
      | ']' :: rest => some (acc.reverse, rest)
      | a :: '-' :: b :: rest =>
          if a == '\\' then none
          else if b == ']' then some ((⟨'-', '-'⟩ :: ⟨a, a⟩ :: acc).reverse, rest)
          else if b == '\\' then none
          else if a ≤ b then parseClass fuel rest (⟨a, b⟩ :: acc)
          else none
      | c :: rest =>
          if c == '\\' then none else parseClass fuel rest (⟨c, c⟩ :: acc)

/-- Parse a piece sequence; returns the pieces and whether a final `$` anchor
was present. -/
def parseMain (fuel : Nat) (cs : List Char) (acc : List RPiece) :
    Option (List RPiece × Bool) :=
  match fuel with
  | 0 => none
  | fuel + 1 =>
      match cs with
      | [] => some (acc.reverse, false)
      | ['$'] => some (acc.reverse, true)
      | '[' :: rest =>
          match rest with
          | '^' :: _ => none
          | _ =>
              match parseClass (rest.length + 1) rest [] with
              | none => none
              | some (ranges, rest2) =>
                  match parseQuantifier rest2 with
                  | none => none
                  | some (q, rest3) =>
                      let p : RPiece := ⟨.cls ranges, (q.getD (1, 1)).1, (q.getD (1, 1)).2⟩
                      parseMain fuel rest3 (p :: acc)
      | c :: rest =>
          if isRegexMeta c then none
          else
            match parseQuantifier rest with
            | none => none
            | some (q, rest2) =>
                let p : RPiece := ⟨.lit c, (q.getD (1, 1)).1, (q.getD (1, 1)).2⟩
                parseMain fuel rest2 (p :: acc)

/-- Model of `new RegExp(p)` for the supported subset; `none` models the
constructor throwing a `SyntaxError`. -/
def compileRegex (p : String) : Option Regex :=
  let cs := p.data
  match cs with
  | '^' :: rest =>
      match parseMain (rest.length + 1) rest [] with
      | some (pieces, anchE) => some ⟨true, anchE, pieces⟩
      | none => none
  | _ =>
      match parseMain (cs.length + 1) cs [] with
      | some (pieces, anchE) => some ⟨false, anchE, pieces⟩
      | none => none

/-- Does an atom match one character? -/
def atomMatch (a : RAtom) (c : Char) : Bool :=
  match a with
  | .lit x => c == x
  | .cls rs => rs.any (fun r => r.lo ≤ c && c ≤ r.hi)

/-- Consume exactly `k` characters, all matching `a`. -/
def consumeAtom (a : RAtom) : Nat → List Char → Option (List Char)
  | 0, cs => some cs
  | _ + 1, [] => none
  | k + 1, c :: cs => if atomMatch a c then consumeAtom a k cs else none

/-- Existential matcher for a piece sequence starting at the head of `cs`;
`anchE` requires the match to end at the end of input. -/
def matchPieces (fuel : Nat) (ps : List RPiece) (cs : List Char) (anchE : Bool) : Bool :=
  match fuel with
  | 0 => false
  | fuel + 1 =>
      match ps with
      | [] => !anchE || cs.isEmpty
      | p :: rest =>
          (List.range (p.hi + 1 - p.lo)).any (fun i =>
            match consumeAtom p.atom (p.lo + i) cs with
            | none => false
            | some cs2 => matchPieces fuel rest cs2 anchE)

/-- Model of `regex.test(s)`: search for a match at any start position unless
anchored at the start. -/
def regexTest (re : Regex) (s : String) : Bool :=
  let cs := s.data
  let fuel := re.pieces.length + 1
  if re.anchS then matchPieces fuel re.pieces cs re.anchE
  else (List.range (cs.length + 1)).any (fun i => matchPieces fuel re.pieces (cs.drop i) re.anchE)

/-- `compileRegex` and `regexTest` combined: `none` when the pattern does not
compile, otherwise whether `t` matches. -/
def regexMatchQ (p t : String) : Option Bool :=
  (compileRegex p).map (fun re => regexTest re t)

/-! ### Calendar dates (`date-fns` collaborators) -/

/-- A timezone-free calendar date. -/
structure CalDate where
  year : Nat
  month : Nat
  day : Nat
deriving DecidableEq, Repr

/-- Gregorian leap year. -/
def isLeap (y : Nat) : Bool :=
  (y % 4 == 0 && y % 100 != 0) || y % 400 == 0

/-- Days in a month. -/
def daysInMonth (y m : Nat) : Nat :=
  if m == 2 then (if isLeap y then 29 else 28)
  else if m == 4 || m == 6 || m == 9 || m == 11 then 30
  else 31

/-- Model of `date-fns` `parseISO` on the `yyyy-MM-dd` strings this form uses:
the parse fails (an invalid `Date`) unless the string denotes a real calendar
date. -/
def parseDate (s : String) : Option CalDate :=
  match s.data with
  | [a, b, c, d, e, f, g, h, i, j] =>
      if e == '-' && h == '-' && a.isDigit && b.isDigit && c.isDigit && d.isDigit
          && f.isDigit && g.isDigit && i.isDigit && j.isDigit then
        let dv := fun (x : Char) => x.toNat - 48
        let y := dv a * 1000 + dv b * 100 + dv c * 10 + dv d
        let mo := dv f * 10 + dv g
        let dy := dv i * 10 + dv j
        if 1 ≤ mo && mo ≤ 12 && 1 ≤ dy && dy ≤ daysInMonth y mo then some ⟨y, mo, dy⟩
        else none
      else none
  | _ => none

/-- Days since 1970-01-01 (civil-from-days algorithm); midnight of a calendar
date, which is how the comparisons in the date validator see both sides. -/
def dayNumber (c : CalDate) : Int :=
  let y : Int := if c.month ≤ 2 then (c.year : Int) - 1 else (c.year : Int)
  let era : Int := Int.fdiv y 400
  let yoe : Int := y - era * 400
  let mp : Int := Int.emod ((c.month : Int) + 9) 12
  let doy : Int := Int.fdiv (153 * mp + 2) 5 + (c.day : Int) - 1
  let doe : Int := yoe * 365 + Int.fdiv yoe 4 - Int.fdiv yoe 100 + doy
  era * 146097 + doe - 719468

/-- Day of week as JavaScript `getDay()`: 0 = Sunday … 6 = Saturday. -/
def weekday (c : CalDate) : Int :=
  Int.emod (dayNumber c + 4) 7

/-- A JavaScript `Date`: invalid, or a calendar date plus a time-of-day
component (milliseconds past local midnight; the holiday check strips it). -/
inductive JSDate where
  | invalid
  | valid (cal : CalDate) (ms : Nat)
deriving DecidableEq, Repr

/-- `src/validation/holidays.ts`: the eleven 2025 US federal holiday strings. -/
def US_HOLIDAYS_2025_STRINGS : List String :=
  ["2025-01-01", "2025-01-20", "2025-02-17", "2025-05-26", "2025-06-19",
   "2025-07-04", "2025-09-01", "2025-10-13", "2025-11-11", "2025-11-27",
   "2025-12-25"]

/-- `US_HOLIDAYS_2025_STRINGS.map(parseISO)`; the `isValid` guard inside
`isPublicHoliday` drops entries that failed to parse, which `filterMap`
folds in. -/
def US_HOLIDAYS_2025 : List CalDate :=
  US_HOLIDAYS_2025_STRINGS.filterMap parseDate

/-- `isPublicHoliday` from `src/validation/holidays.ts`: invalid dates yield
`false`; a valid date is normalized to its calendar-date component (the
`format`/`parseISO` round trip strips the time) and compared against the
holiday table. -/
def isPublicHoliday (d : JSDate) : Bool :=
  match d with
  | .invalid => false
  | .valid cal _ => US_HOLIDAYS_2025.any (fun h => decide (h = cal))

/-- `isWeekend` from `src/validation/holidays.ts`: invalid dates yield `false`;
otherwise `getDay()` is Sunday (0) or Saturday (6). -/
def isWeekendJS (d : JSDate) : Bool :=
  match d with
  | .invalid => false
  | .valid cal _ => weekday cal == 0 || weekday cal == 6

/-! ### JavaScript numbers in rule documents -/

/-- A numeric constant from a rule document: its JSON source text (which is
also what `String(...)` renders into messages for the literals this
repository uses) and its exact value. -/
structure JNum where
  str : String
  val : ℚ
deriving DecidableEq, Repr

/-- Model of yup's number cast (`+string` after removing whitespace) for plain
decimal literals: optional sign, integer digits, optional fraction digits.
Anything else — including the empty string — casts to `NaN`, modelled as
`none`.  The value `±(i + f / 10^|f|)` is built with `mkRat` over integer
arithmetic. -/
def parseJsNumber (s : String) : Option ℚ :=
  let cs := s.data.filter (fun c => !jsWs c)
  let core := fun (ds : List Char) (sgn : Int) =>
    let intPart := ds.takeWhile Char.isDigit
    let after := ds.drop intPart.length
    match after with
    | [] => if intPart.isEmpty then none else some (mkRat (sgn * (natVal intPart : Int)) 1)
    | '.' :: frac =>
        if frac.all Char.isDigit && !(intPart.isEmpty && frac.isEmpty) then
          some (mkRat (sgn * ((natVal intPart : Int) * ((10 : Int) ^ frac.length)
            + (natVal frac : Int))) ((10 : Nat) ^ frac.length))
        else none
    | _ => none
  match cs with
  | [] => none
  | '+' :: rest => core rest 1
  | '-' :: rest => core rest (-1)
  | _ => core cs 1

/-! ### Rule documents -/

/-- The `JsonRule` interface of `buildYupSchema.ts`.  `$ref` is the field
`ref` (Lean identifiers cannot contain `$`); an absent JSON attribute is
`none`. -/
structure JsonRule where
  type : Option String := none
  required : Option Bool := none
  minLength : Option Nat := none
  maxLength : Option Nat := none
  pattern : Option String := none
  allowedValues : Option (List String) := none
  minValue : Option JNum := none
  maxValue : Option JNum := none
  customRule : Option String := none
  minDate : Option String := none
  errorMessageRequired : Option String := none
  errorMessageMinLength : Option String := none
  errorMessageMaxLength : Option String := none
  errorMessagePattern : Option String := none
  errorMessageAllowedValues : Option String := none
  errorMessageType : Option String := none
  errorMessageMinValue : Option String := none
  errorMessageMaxValue : Option String := none
  errorMessageMinDate : Option String := none
  errorMessageCustomRule : Option String := none
  ref : Option String := none
deriving DecidableEq, Repr

/-- A candidate raw value handed to a field validator. -/
inductive Value where
  | vstr (s : String)
  | vnull
  | vundef
deriving DecidableEq, Repr

/-- A validation outcome: success, or a failure carrying the failing yup test
name and the rendered message. -/
inductive VResult where
  | ok
  | fail (kind : String) (message : String)
deriving DecidableEq, Repr

/-! ### Validator compilation: per-field validators -/

/-- The name of the composite string test the compiler creates for a field. -/
def stringTestName (f : String) : String := "is-string-and-valid-" ++ f

/-- The name of the composite number test the compiler creates for a field. -/
def numberTestName (f : String) : String := "is-number-and-valid-" ++ f

/-- The name of the composite date test the compiler creates for a field. -/
def dateTestName (f : String) : String := "is-date-and-valid-" ++ f

/-- `rules.errorMessageRequired || <decamelized field name> is required`. -/
def requiredMessage (f : String) (r : JsonRule) : String :=
  strOr r.errorMessageRequired (decamel f ++ " is required")

/-- Absence for string rules: empty after trim, `null`, or `undefined`. -/
def stringAbsent (v : Value) : Bool :=
  match v with
  | .vstr s => jsTrim s == ""
  | .vnull => true
  | .vundef => true

/-- Absence for number/date/default rules: exactly `""`, `null`, or
`undefined` (no trimming here). -/
def exactAbsent (v : Value) : Bool :=
  match v with
  | .vstr s => s == ""
  | .vnull => true
  | .vundef => true

/-- The `oneOf` (allowedValues) check on the trimmed value; `some msg` on
failure.  yup runs this whitelist among its internal tests, before the
chained length and pattern tests. -/
def oneOfCheck (r : JsonRule) (t : String) : Option String :=
  match r.allowedValues with
  | some l =>
      if l.contains t then none
      else some (replaceFirst (strOr r.errorMessageAllowedValues ("Must be one of: \x7ballowedValues\x7d"))
        ("\x7ballowedValues\x7d") (String.intercalate ", " l))
  | none => none

/-- The `minLength` check on the trimmed value; `some msg` on failure. -/
def minLenCheck (r : JsonRule) (t : String) : Option String :=
  match r.minLength with
  | some n =>
      if t.length < n then
        some (replaceFirst (strOr r.errorMessageMinLength ("Minimum length is \x7bminLength\x7d"))
          ("\x7bminLength\x7d") (toString n))
      else none
  | none => none

/-- The `maxLength` check on the trimmed value; `some msg` on failure. -/
def maxLenCheck (r : JsonRule) (t : String) : Option String :=
  match r.maxLength with
  | some n =>
      if n < t.length then
        some (replaceFirst (strOr r.errorMessageMaxLength ("Maximum length is \x7bmaxLength\x7d"))
          ("\x7bmaxLength\x7d") (toString n))
      else none
  | none => none

/-- The `pattern` check on the trimmed value; `some msg` on failure.  A falsy
(empty) pattern is never installed, and a pattern the `RegExp` constructor
rejects is skipped (the `catch` path in the source). -/
def patCheck (r : JsonRule) (t : String) : Option String :=
  match r.pattern with
  | some p =>
      if p = "" then none
      else if regexMatchQ p t = some false then some (strOr r.errorMessagePattern ("Invalid format"))
      else none
  | none => none

/-- The first failing constraint message of the composite string test: yup's
execution order is the whitelist (`allowedValues`) first — it runs among the
schema's internal tests — then the chained `min`, `max`, `matches` tests;
with `abortEarly`, the first failure wins. -/
def stringFailMsg (r : JsonRule) (t : String) : Option String :=
  oneOfCheck r t <|> minLenCheck r t <|> maxLenCheck r t <|> patCheck r t

/-- The composite string test on the trimmed present value. -/
def runStringChecks (f : String) (r : JsonRule) (t : String) : VResult :=
  match stringFailMsg r t with
  | some m => .fail (stringTestName f) m
  | none => .ok

/-- The `console.error` diagnostic the string test emits (each time it runs on
a present value) when the configured pattern does not compile. -/
def patDiag (f : String) (r : JsonRule) : List String :=
  match r.pattern with
  | some p =>
      if p ≠ "" ∧ compileRegex p = none then
        ["Invalid regex pattern for field " ++ f ++ ": " ++ p]
      else []
  | none => []

/-- The `minValue` check; `some msg` on failure. -/
def minValCheck (r : JsonRule) (q : ℚ) : Option String :=
  match r.minValue with
  | some jn =>
      if q < jn.val then
        some (replaceFirst (strOr r.errorMessageMinValue ("Minimum value is \x7bminValue\x7d"))
          ("\x7bminValue\x7d") jn.str)
      else none
  | none => none

/-- The `maxValue` check; `some msg` on failure. -/
def maxValCheck (r : JsonRule) (q : ℚ) : Option String :=
  match r.maxValue with
  | some jn =>
      if jn.val < q then
        some (replaceFirst (strOr r.errorMessageMaxValue ("Maximum value is \x7bmaxValue\x7d"))
          ("\x7bmaxValue\x7d") jn.str)
      else none
  | none => none

/-- The composite number test on a present value: number cast (`NaN` is a
type failure), then `min`, then `max`, first failure wins. -/
def runNumberChecks (f : String) (r : JsonRule) (s : String) : VResult :=
  match parseJsNumber s with
  | none => .fail (numberTestName f) (strOr r.errorMessageType ("Must be a valid number"))
  | some q =>
      match minValCheck r q <|> maxValCheck r q with
      | some m => .fail (numberTestName f) m
      | none => .ok

/-- The composite date test on a present value: ISO parse (a failure is a
type-message error), then the `noWeekendOrHoliday` custom rule, then the
`minDate: "today"` bound — in that source order, first failure wins.
Ties on `minDate` pass (`startOfDay(today) <= parsedDate`). -/
def runDateChecks (f : String) (r : JsonRule) (today : CalDate) (s : String) : VResult :=
  match parseDate s with
  | none => .fail (dateTestName f) (strOr r.errorMessageType ("Please enter a valid date."))
  | some cal =>
      if r.customRule = some "noWeekendOrHoliday"
          ∧ (isWeekendJS (.valid cal 0) || isPublicHoliday (.valid cal 0)) = true then
        .fail (dateTestName f) (strOr r.errorMessageCustomRule ("Date cannot be a weekend or public holiday."))
      else if r.minDate = some "today" ∧ dayNumber cal < dayNumber today then
        .fail (dateTestName f) (strOr r.errorMessageMinDate ("Date cannot be in the past."))
      else .ok

/-- The string-field validator (`case 'string'`). -/
def stringBranch (f : String) (r : JsonRule) (v : Value) : VResult :=
  if stringAbsent v then
    if r.required = some true then .fail "required" (requiredMessage f r) else .ok
  else
    match v with
    | .vstr s => runStringChecks f r (jsTrim s)
    | _ => .ok

/-- The number-field validator (`case 'number'`). -/
def numberBranch (f : String) (r : JsonRule) (v : Value) : VResult :=
  if exactAbsent v then
    if r.required = some true then .fail "required" (requiredMessage f r) else .ok
  else
    match v with
    | .vstr s => runNumberChecks f r s
    | _ => .ok

/-- The date-field validator (`case 'date'`).  The non-string fallback mirrors
the safeguard at the top of the source test (unreachable for the value
universe here, whose only present values are strings). -/
def dateBranch (f : String) (r : JsonRule) (today : CalDate) (v : Value) : VResult :=
  if exactAbsent v then
    if r.required = some true then .fail "required" (requiredMessage f r) else .ok
  else
    match v with
    | .vstr s => runDateChecks f r today s
    | _ => .fail (dateTestName f) (strOr r.errorMessageType ("Date must be a valid string input."))

/-- The permissive fallback validator (`default` case): only required/absence
semantics, every present value passes. -/
def defaultBranch (f : String) (r : JsonRule) (v : Value) : VResult :=
  if exactAbsent v then
    if r.required = some true then .fail "required" (requiredMessage f r) else .ok
  else .ok

/-- The compiled validator for one field: dispatch on the resolved rule's
declared kind, exactly as the `switch (rules.type)` in the source. -/
def validateField (f : String) (r : JsonRule) (today : CalDate) (v : Value) : VResult :=
  if r.type = some "string" then stringBranch f r v
  else if r.type = some "number" then numberBranch f r v
  else if r.type = some "date" then dateBranch f r today v
  else defaultBranch f r v

/-- The diagnostics one validation run emits: the string test logs its
invalid-pattern `console.error` each time it runs on a present value. -/
def validateDiag (f : String) (r : JsonRule) (v : Value) : List String :=
  if r.type = some "string" then
    if stringAbsent v then []
    else
      match v with
      | .vstr _ => patDiag f r
      | _ => []
  else []

/-! ### Validator compilation: document level (`$ref` resolution) -/

/-- Attribute-level shallow merge `{...def, ...fieldRule}`: an attribute
explicitly present on the field rule wins, otherwise the definition's
attribute is copied. -/
def jsOverride {α : Type} (fieldA defA : Option α) : Option α :=
  match fieldA with
  | some x => some x
  | none => defA

/-- `rules = { ...definitions[refPath], ...rules }; delete rules.$ref`. -/
def mergeRule (d r : JsonRule) : JsonRule where
  type := jsOverride r.type d.type
  required := jsOverride r.required d.required
  minLength := jsOverride r.minLength d.minLength
  maxLength := jsOverride r.maxLength d.maxLength
  pattern := jsOverride r.pattern d.pattern
  allowedValues := jsOverride r.allowedValues d.allowedValues
  minValue := jsOverride r.minValue d.minValue
  maxValue := jsOverride r.maxValue d.maxValue
  customRule := jsOverride r.customRule d.customRule
  minDate := jsOverride r.minDate d.minDate
  errorMessageRequired := jsOverride r.errorMessageRequired d.errorMessageRequired
  errorMessageMinLength := jsOverride r.errorMessageMinLength d.errorMessageMinLength
  errorMessageMaxLength := jsOverride r.errorMessageMaxLength d.errorMessageMaxLength
  errorMessagePattern := jsOverride r.errorMessagePattern d.errorMessagePattern
  errorMessageAllowedValues := jsOverride r.errorMessageAllowedValues d.errorMessageAllowedValues
  errorMessageType := jsOverride r.errorMessageType d.errorMessageType
  errorMessageMinValue := jsOverride r.errorMessageMinValue d.errorMessageMinValue
  errorMessageMaxValue := jsOverride r.errorMessageMaxValue d.errorMessageMaxValue
  errorMessageMinDate := jsOverride r.errorMessageMinDate d.errorMessageMinDate
  errorMessageCustomRule := jsOverride r.errorMessageCustomRule d.errorMessageCustomRule
  ref := none

/-- `rules.$ref.replace('#/definitions/', '')`. -/
def stripRef (refStr : String) : String :=
  replaceFirst refStr "#/definitions/" ""

/-- Property lookup in the definitions mapping. -/
def lookupDef : List (String × JsonRule) → String → Option JsonRule
  | [], _ => none
  | (n, d) :: rest, key => if n = key then some d else lookupDef rest key

/-- `console.warn` for an unrecognized declared kind (the `default` case);
an absent `type` prints as `undefined` in the template literal. -/
def showType (t : Option String) : String :=
  match t with
  | some s => s
  | none => "undefined"

/-- The unsupported-kind diagnostic emitted while compiling a field whose
resolved rule's kind has no dedicated branch. -/
def unsupportedWarn (f : String) (r : JsonRule) : List String :=
  if r.type = some "string" ∨ r.type = some "number" ∨ r.type = some "date" then []
  else ["Unsupported validation type \"" ++ showType r.type ++ "\" for field \"" ++ f
        ++ "\". Using mixed()."]

/-- Compile one field: `$ref` resolution (a truthy `$ref` is looked up after
stripping the `#/definitions/` prefix; a miss warns and skips the field),
then the per-kind dispatch.  Returns the field's resolved rule — which fully
determines its compiled validator via `validateField` — plus compile-time
diagnostics. -/
def compileField (defs : List (String × JsonRule)) (f : String) (r : JsonRule) :
    Option JsonRule × List String :=
  match r.ref with
  | some refStr =>
      if refStr = "" then (some r, unsupportedWarn f r)
      else
        match lookupDef defs (stripRef refStr) with
        | some d =>
            let rr := mergeRule d r
            (some rr, unsupportedWarn f rr)
        | none => (none, ["Validation definition not found for $ref: " ++ refStr])
  | none => (some r, unsupportedWarn f r)

/-- Compile a rule document field by field (`for (const fieldName in
configSection)`): each field independently, fields that fail resolution
omitted, diagnostics collected. -/
def compileFields (cfg : List (String × JsonRule)) (defs : List (String × JsonRule)) :
    List (String × JsonRule) × List String :=
  match cfg with
  | [] => ([], [])
  | (f, r) :: rest =>
      let c := compileField defs f r
      let restC := compileFields rest defs
      (match c.1 with
       | some rr => (f, rr) :: restC.1
       | none => restC.1,
       c.2 ++ restC.2)

/-! ### The repository's rule documents -/

/-- `validationDefinitions.json`: `nonEmptyString`. -/
def nonEmptyStringDef : JsonRule :=
  { type := some "string", required := some true, minLength := some 1,
    errorMessageRequired := some "This field cannot be empty.",
    errorMessageMinLength := some "This field requires at least \x7bminLength\x7d character(s)." }

/-- `validationDefinitions.json`: `accountNumber`. -/
def accountNumberDef : JsonRule :=
  { type := some "string", required := some true,
    pattern := some "^[0-9]\x7b8,17\x7d$",
    errorMessageRequired := some "Account number is required.",
    errorMessagePattern := some "Account number must be between 8 and 17 digits." }

/-- `validationDefinitions.json`: `positiveAmount`. -/
def positiveAmountDef : JsonRule :=
  { type := some "number", required := some true,
    minValue := some ⟨"0.01", mkRat 1 100⟩, maxValue := some ⟨"1000000", mkRat 1000000 1⟩,
    errorMessageRequired := some "Amount is required.",
    errorMessageType := some "Amount must be a valid number.",
    errorMessageMinValue := some "Amount must be greater than $0.00.",
    errorMessageMaxValue := some "Amount cannot exceed $\x7bmaxValue\x7d." }

/-- `validationDefinitions.json`: `validDate`. -/
def validDateDef : JsonRule :=
  { type := some "date", required := some true,
    customRule := some "noWeekendOrHoliday", minDate := some "today",
    errorMessageRequired := some "Transfer date is required.",
    errorMessageType := some "Please enter a valid date.",
    errorMessageMinDate := some "Transfer date cannot be in the past.",
    errorMessageCustomRule := some "Transfer date cannot be a weekend or public holiday." }

/-- The definitions mapping of `validationDefinitions.json`. -/
def wireDefinitions : List (String × JsonRule) :=
  [("nonEmptyString", nonEmptyStringDef), ("accountNumber", accountNumberDef),
   ("positiveAmount", positiveAmountDef), ("validDate", validDateDef)]

/-- `wireTransferValidationConfig.json`: `beneficiaryName`. -/
def beneficiaryNameRule : JsonRule :=
  { ref := some "#/definitions/nonEmptyString", maxLength := some 100,
    errorMessageMaxLength := some "Beneficiary name cannot exceed \x7bmaxLength\x7d characters." }

/-- `wireTransferValidationConfig.json`: `beneficiaryAccountNumber`. -/
def beneficiaryAccountNumberRule : JsonRule :=
  { ref := some "#/definitions/accountNumber" }

/-- `wireTransferValidationConfig.json`: `routingNumber`. -/
def routingNumberRule : JsonRule :=
  { type := some "string", required := some true,
    pattern := some "^[0-9]\x7b9\x7d$",
    errorMessageRequired := some "Routing number is required.",
    errorMessagePattern := some "Routing number must be exactly 9 digits." }

/-- `wireTransferValidationConfig.json`: `amount`. -/
def amountRule : JsonRule :=
  { ref := some "#/definitions/positiveAmount" }

/-- `wireTransferValidationConfig.json`: `currency`. -/
def currencyRule : JsonRule :=
  { type := some "string", required := some true,
    allowedValues := some ["USD", "CAD", "EUR"],
    errorMessageRequired := some "Currency is required.",
    errorMessageAllowedValues := some "Invalid currency. Allowed: \x7ballowedValues\x7d." }

/-- `wireTransferValidationConfig.json`: `transferDate`. -/
def transferDateRule : JsonRule :=
  { ref := some "#/definitions/validDate" }

/-- `wireTransferValidationConfig.json`: `memo`. -/
def memoRule : JsonRule :=
  { type := some "string", required := some false, maxLength := some 140,
    errorMessageMaxLength := some "Memo cannot exceed \x7bmaxLength\x7d characters." }

/-- The wire-transfer rule document, field order as declared. -/
def wireTransferRequest : List (String × JsonRule) :=
  [("beneficiaryName", beneficiaryNameRule),
   ("beneficiaryAccountNumber", beneficiaryAccountNumberRule),
   ("routingNumber", routingNumberRule),
   ("amount", amountRule),
   ("currency", currencyRule),
   ("transferDate", transferDateRule),
   ("memo", memoRule)]

/-! ### Small concrete rules used to evaluate the validators -/

/-- A string rule with both a membership list and a minimum length, to observe
which constraint a value violating both fails on. -/
def mixedOrderRule : JsonRule :=
  { type := some "string", required := some true, minLength := some 5,
    allowedValues := some ["USD", "CAD"] }

/-- A string rule whose maxLength template mentions its placeholder twice. -/
def doubleTokenRule : JsonRule :=
  { type := some "string", required := some true, maxLength := some 3,
    errorMessageMaxLength := some "max \x7bmaxLength\x7d and \x7bmaxLength\x7d chars" }

/-- The maxLength round-trip rule of the spec's templating example. -/
def maxOnlyRule : JsonRule :=
  { type := some "string", required := some true, maxLength := some 100,
    errorMessageMaxLength := some "cannot exceed \x7bmaxLength\x7d characters" }

/-- A string rule whose pattern the `RegExp` constructor rejects (an unclosed
character class), alongside a length constraint. -/
def invalidPatternRule : JsonRule :=
  { type := some "string", required := some true, maxLength := some 2,
    pattern := some "[" }

/-- A rule with the wire-format kind `boolean`, which has no dedicated branch
in the compiler. -/
def booleanRule : JsonRule :=
  { type := some "boolean", required := some true }

/-- A field rule referencing a definition absent from the mapping. -/
def ghostRule : JsonRule :=
  { ref := some "#/definitions/doesNotExist" }

/-- The reading of "definition attributes copied first, field attributes
overwrite" for one attribute: when the field rule does not set it, the
resolved rule carries the definition's value; when the field rule sets it,
that value survives. -/
def mergesAttr {α : Type} (fieldA defA resA : Option α) : Prop :=
  (fieldA = none → resA = defA) ∧ ∀ x, fieldA = some x → resA = some x

/-! ### Shared lemmas about the embedding -/

/-- Dispatch: a string-kind rule selects the string branch. -/
theorem validateField_string {f : String} {r : JsonRule} {today : CalDate} {v : Value}
    (hty : r.type = some "string") : validateField f r today v = stringBranch f r v := by
  simp [validateField, hty]

/-- Dispatch: a number-kind rule selects the number branch. -/
theorem validateField_number {f : String} {r : JsonRule} {today : CalDate} {v : Value}
    (hty : r.type = some "number") : validateField f r today v = numberBranch f r v := by
  simp [validateField, hty]

/-- Dispatch: a date-kind rule selects the date branch. -/
theorem validateField_date {f : String} {r : JsonRule} {today : CalDate} {v : Value}
    (hty : r.type = some "date") : validateField f r today v = dateBranch f r today v := by
  simp [validateField, hty]

/-- Dispatch: a rule of any other kind selects the permissive fallback. -/
theorem validateField_default {f : String} {r : JsonRule} {today : CalDate} {v : Value}
    (h1 : r.type ≠ some "string") (h2 : r.type ≠ some "number") (h3 : r.type ≠ some "date") :
    validateField f r today v = defaultBranch f r v := by
  simp [validateField, h1, h2, h3]

/-- A present string value reaches the composite string test, trimmed. -/
theorem stringBranch_present {f : String} {r : JsonRule} {s : String}
    (hp : jsTrim s ≠ "") : stringBranch f r (.vstr s) = runStringChecks f r (jsTrim s) := by
  simp [stringBranch, stringAbsent, hp]

/-- A present string value reaches the composite number test. -/
theorem numberBranch_present {f : String} {r : JsonRule} {s : String}
    (hp : s ≠ "") : numberBranch f r (.vstr s) = runNumberChecks f r s := by
  simp [numberBranch, exactAbsent, hp]

/-- A present string value reaches the composite date test. -/
theorem dateBranch_present {f : String} {r : JsonRule} {today : CalDate} {s : String}
    (hp : s ≠ "") : dateBranch f r today (.vstr s) = runDateChecks f r today s := by
  simp [dateBranch, exactAbsent, hp]

/-- A failing whitelist check is the first failure. -/
theorem stringFailMsg_oneOf {r : JsonRule} {t m : String}
    (h : oneOfCheck r t = some m) : stringFailMsg r t = some m := by
  unfold stringFailMsg
  rw [h]
  rfl

/-- With the whitelist passing, a failing minLength check is the first
failure. -/
theorem stringFailMsg_minLen {r : JsonRule} {t m : String}
    (h0 : oneOfCheck r t = none) (h : minLenCheck r t = some m) :
    stringFailMsg r t = some m := by
  unfold stringFailMsg
  rw [h0, h]
  rfl

/-- With whitelist and minLength passing, a failing maxLength check is the
first failure. -/
theorem stringFailMsg_maxLen {r : JsonRule} {t m : String}
    (h0 : oneOfCheck r t = none) (h1 : minLenCheck r t = none)
    (h : maxLenCheck r t = some m) : stringFailMsg r t = some m := by
  unfold stringFailMsg
  rw [h0, h1, h]
  rfl

/-- With the earlier checks passing, a failing pattern check is the first
failure. -/
theorem stringFailMsg_pat {r : JsonRule} {t m : String}
    (h0 : oneOfCheck r t = none) (h1 : minLenCheck r t = none)
    (h2 : maxLenCheck r t = none) (h : patCheck r t = some m) :
    stringFailMsg r t = some m := by
  unfold stringFailMsg
  rw [h0, h1, h2, h]
  rfl

/-- When every check passes there is no failure message. -/
theorem stringFailMsg_none {r : JsonRule} {t : String}
    (h0 : oneOfCheck r t = none) (h1 : minLenCheck r t = none)
    (h2 : maxLenCheck r t = none) (h3 : patCheck r t = none) :
    stringFailMsg r t = none := by
  unfold stringFailMsg
  rw [h0, h1, h2, h3]
  rfl

/-- The whitelist check passes when every configured list contains the
value. -/
theorem oneOfCheck_eq_none {r : JsonRule} {t : String}
    (h : ∀ l, r.allowedValues = some l → l.contains t = true) :
    oneOfCheck r t = none := by
  cases hl : r.allowedValues with
  | none => simp [oneOfCheck, hl]
  | some l =>
      simp [oneOfCheck, hl]
      simpa using h l hl

/-- The minLength check passes when every configured bound is met. -/
theorem minLenCheck_eq_none {r : JsonRule} {t : String}
    (h : ∀ n, r.minLength = some n → n ≤ t.length) :
    minLenCheck r t = none := by
  cases hn : r.minLength with
  | none => simp [minLenCheck, hn]
  | some n => simp [minLenCheck, hn, Nat.not_lt.mpr (h n hn)]

/-- The maxLength check passes when every configured bound is met. -/
theorem maxLenCheck_eq_none {r : JsonRule} {t : String}
    (h : ∀ n, r.maxLength = some n → t.length ≤ n) :
    maxLenCheck r t = none := by
  cases hn : r.maxLength with
  | none => simp [maxLenCheck, hn]
  | some n => simp [maxLenCheck, hn, Nat.not_lt.mpr (h n hn)]

/-- The pattern check passes (or is skipped) unless a compiled pattern
mismatches. -/
theorem patCheck_eq_none {r : JsonRule} {t : String}
    (h : ∀ p, r.pattern = some p → p ≠ "" → regexMatchQ p t ≠ some false) :
    patCheck r t = none := by
  cases hp : r.pattern with
  | none => simp [patCheck, hp]
  | some p =>
      by_cases he : p = ""
      · simp [patCheck, hp, he]
      · simp [patCheck, hp, he, h p hp he]

/-- A value outside the configured list fails the whitelist check with the
rendered message. -/
theorem oneOfCheck_eq_some {r : JsonRule} {t : String} {l : List String}
    (hl : r.allowedValues = some l) (hc : l.contains t = false) :
    oneOfCheck r t
      = some (replaceFirst (strOr r.errorMessageAllowedValues ("Must be one of: \x7ballowedValues\x7d"))
          ("\x7ballowedValues\x7d") (String.intercalate ", " l)) := by
  simp [oneOfCheck, hl]
  simpa using hc

/-- A too-short value fails the minLength check with the rendered message. -/
theorem minLenCheck_eq_some {r : JsonRule} {t : String} {n : Nat}
    (hn : r.minLength = some n) (hlt : t.length < n) :
    minLenCheck r t
      = some (replaceFirst (strOr r.errorMessageMinLength ("Minimum length is \x7bminLength\x7d"))
          ("\x7bminLength\x7d") (toString n)) := by
  simp [minLenCheck, hn, hlt]

/-- A too-long value fails the maxLength check with the rendered message. -/
theorem maxLenCheck_eq_some {r : JsonRule} {t : String} {n : Nat}
    (hn : r.maxLength = some n) (hlt : n < t.length) :
    maxLenCheck r t
      = some (replaceFirst (strOr r.errorMessageMaxLength ("Maximum length is \x7bmaxLength\x7d"))
          ("\x7bmaxLength\x7d") (toString n)) := by
  simp [maxLenCheck, hn, hlt]

/-- A compiled pattern that does not match fails the pattern check. -/
theorem patCheck_eq_some {r : JsonRule} {t p : String}
    (hp : r.pattern = some p) (hne : p ≠ "") (hm : regexMatchQ p t = some false) :
    patCheck r t = some (strOr r.errorMessagePattern ("Invalid format")) := by
  simp [patCheck, hp, hne, hm]

/-- The minValue check passes when every configured bound is met. -/
theorem minValCheck_eq_none {r : JsonRule} {q : ℚ}
    (h : ∀ jn, r.minValue = some jn → jn.val ≤ q) : minValCheck r q = none := by
  cases hj : r.minValue with
  | none => simp [minValCheck, hj]
  | some jn => simp [minValCheck, hj, not_lt.mpr (h jn hj)]

/-- A value below the configured bound fails the minValue check with the
rendered message. -/
theorem minValCheck_eq_some {r : JsonRule} {q : ℚ} {jn : JNum}
    (hj : r.minValue = some jn) (hlt : q < jn.val) :
    minValCheck r q
      = some (replaceFirst (strOr r.errorMessageMinValue ("Minimum value is \x7bminValue\x7d"))
          ("\x7bminValue\x7d") jn.str) := by
  simp [minValCheck, hj, hlt]

/-- A value above the configured bound fails the maxValue check with the
rendered message. -/
theorem maxValCheck_eq_some {r : JsonRule} {q : ℚ} {jn : JNum}
    (hj : r.maxValue = some jn) (hlt : jn.val < q) :
    maxValCheck r q
      = some (replaceFirst (strOr r.errorMessageMaxValue ("Maximum value is \x7bmaxValue\x7d"))
          ("\x7bmaxValue\x7d") jn.str) := by
  simp [maxValCheck, hj, hlt]

/-- Every failure of the string branch carries the `required` test name or the
field's composite string test name. -/
theorem stringBranch_kinds {f : String} {r : JsonRule} {v : Value} {k m : String}
    (h : stringBranch f r v = .fail k m) : k = "required" ∨ k = stringTestName f := by
  unfold stringBranch at h
  split at h
  · split at h
    · cases h
      exact Or.inl rfl
    · exact absurd h (by simp)
  · split at h
    · unfold runStringChecks at h
      split at h
      · cases h
        exact Or.inr rfl
      · exact absurd h (by simp)
    · exact absurd h (by simp)

/-- Every failure of the number branch carries the `required` test name or the
field's composite number test name. -/
theorem numberBranch_kinds {f : String} {r : JsonRule} {v : Value} {k m : String}
    (h : numberBranch f r v = .fail k m) : k = "required" ∨ k = numberTestName f := by
  unfold numberBranch at h
  split at h
  · split at h
    · cases h
      exact Or.inl rfl
    · exact absurd h (by simp)
  · split at h
    · unfold runNumberChecks at h
      split at h
      · cases h
        exact Or.inr rfl
      · split at h
        · cases h
          exact Or.inr rfl
        · exact absurd h (by simp)
    · exact absurd h (by simp)

/-- Every failure of the date branch carries the `required` test name or the
field's composite date test name. -/
theorem dateBranch_kinds {f : String} {r : JsonRule} {today : CalDate} {v : Value}
    {k m : String} (h : dateBranch f r today v = .fail k m) :
    k = "required" ∨ k = dateTestName f := by
  unfold dateBranch at h
  split at h
  · split at h
    · cases h
      exact Or.inl rfl
    · exact absurd h (by simp)
  · split at h
    · unfold runDateChecks at h
      split at h
      · cases h
        exact Or.inr rfl
      · split at h
        · cases h
          exact Or.inr rfl
        · split at h
          · cases h
            exact Or.inr rfl
          · exact absurd h (by simp)
    · cases h
      exact Or.inr rfl

/-- Every failure of the permissive fallback carries the `required` test
name. -/
theorem defaultBranch_kinds {f : String} {r : JsonRule} {v : Value} {k m : String}
    (h : defaultBranch f r v = .fail k m) : k = "required" := by
  unfold defaultBranch at h
  split at h
  · split at h
    · cases h
      rfl
    · exact absurd h (by simp)
  · exact absurd h (by simp)

/-- Unfolding of document compilation at a field. -/
theorem compileFields_cons (f : String) (r : JsonRule)
    (tl defs : List (String × JsonRule)) :
    compileFields ((f, r) :: tl) defs
      = (match (compileField defs f r).1 with
         | some rr => (f, rr) :: (compileFields tl defs).1
         | none => (compileFields tl defs).1,
         (compileField defs f r).2 ++ (compileFields tl defs).2) := rfl

/-- Entries surviving compilation all stem from a field of the input
document. -/
theorem compileFields_keys_subset (cfg defs : List (String × JsonRule)) :
    ∀ g rr, (g, rr) ∈ (compileFields cfg defs).1 → ∃ r0, (g, r0) ∈ cfg := by
  induction cfg with
  | nil => simp [compileFields]
  | cons hd tl ih =>
      obtain ⟨fh, rh⟩ := hd
      intro g rr hg
      rw [compileFields_cons] at hg
      cases hc : (compileField defs fh rh).1 with
      | some r2 =>
          simp only [hc] at hg
          rcases List.mem_cons.mp hg with hg | hg
          · cases hg
            exact ⟨rh, List.mem_cons_self _ _⟩
          · obtain ⟨r0, h0⟩ := ih g rr hg
            exact ⟨r0, List.mem_cons_of_mem _ h0⟩
      | none =>
          simp only [hc] at hg
          obtain ⟨r0, h0⟩ := ih g rr hg
          exact ⟨r0, List.mem_cons_of_mem _ h0⟩

/-- A field whose compilation is skipped contributes nothing to the compiled
mapping, wherever it sits in the document. -/
theorem compileFields_skip_fst (l1 l2 : List (String × JsonRule)) (f : String)
    (r : JsonRule) (defs : List (String × JsonRule))
    (hcf : (compileField defs f r).1 = none) :
    (compileFields (l1 ++ (f, r) :: l2) defs).1 = (compileFields (l1 ++ l2) defs).1 := by
  induction l1 with
  | nil => simp [compileFields, hcf]
  | cons hd tl ih =>
      obtain ⟨g, rg⟩ := hd
      cases hc : (compileField defs g rg).1 <;> simp [compileFields, hc, ih]

/-- A diagnostic a field's compilation emits appears among the document's
compile diagnostics. -/
theorem compileFields_diag_mem (l1 l2 : List (String × JsonRule)) (f : String)
    (r : JsonRule) (defs : List (String × JsonRule)) (msg : String)
    (hcf : msg ∈ (compileField defs f r).2) :
    msg ∈ (compileFields (l1 ++ (f, r) :: l2) defs).2 := by
  induction l1 with
  | nil =>
      simp [compileFields]
      exact Or.inl hcf
  | cons hd tl ih =>
      obtain ⟨g, rg⟩ := hd
      simp [compileFields]
      right
      simpa using ih

/-- The shallow-merge helper realizes the copy-then-override semantics. -/
theorem jsOverride_merges {α : Type} (fieldA defA : Option α) :
    mergesAttr fieldA defA (jsOverride fieldA defA) := by
  constructor
  · intro h
    rw [h]
    rfl
  · intro x hx
    rw [hx]
    rfl

/-- Every entry of the holiday table lies in 2025. -/
theorem holidays_year : ∀ h ∈ US_HOLIDAYS_2025, h.year = 2025 := by decide

/-! ### Claim theorems -/

/-- Claim C10: for every valid date input, `isPublicHoliday` returns true
exactly when the input's calendar-date component — any time of day stripped —
equals one of the eleven fixed 2025 US holiday dates of the static reference
list, and every valid date whose calendar date lies outside 2025 returns
false. -/
theorem c10_holiday_membership (cal : CalDate) (ms : Nat) :
    (isPublicHoliday (.valid cal ms) = true ↔ cal ∈ US_HOLIDAYS_2025)
    ∧ (cal.year ≠ 2025 → isPublicHoliday (.valid cal ms) = false)
    ∧ US_HOLIDAYS_2025.length = 11 := by
  have hiff : isPublicHoliday (.valid cal ms) = true ↔ cal ∈ US_HOLIDAYS_2025 := by
    simp [isPublicHoliday]
  refine ⟨hiff, fun hy => ?_, by decide⟩
  cases hb : isPublicHoliday (.valid cal ms) with
  | false => rfl
  | true => exact absurd (holidays_year cal (hiff.mp hb)) hy

/-- Witness for C10: New Year's Day 2026 is not in the table, and Christmas
2025 at 11:00 AM is a holiday (the time component is stripped). -/
theorem c10_holiday_membership_witness :
    isPublicHoliday (.valid ⟨2026, 1, 1⟩ 0) = false
    ∧ isPublicHoliday (.valid ⟨2025, 12, 25⟩ 39600000) = true := by
  constructor
  · exact (c10_holiday_membership ⟨2026, 1, 1⟩ 0).2.1 (by decide)
  · exact (c10_holiday_membership ⟨2025, 12, 25⟩ 39600000).1.mpr (by decide)

/-- Claim C6: for every compiled string-field validator whose resolved rule
has `required = true`, the empty string, a whitespace-only string, `null` and
`undefined` all yield a `required`-kind failure whose message is the rule's
`errorMessageRequired` or, when absent, the generated default naming the
field. -/
theorem c6_required_absence (f : String) (r : JsonRule) (today : CalDate)
    (hty : r.type = some "string") (hreq : r.required = some true) :
    (∀ s, jsTrim s = "" → validateField f r today (.vstr s)
        = .fail "required" (strOr r.errorMessageRequired (decamel f ++ " is required")))
    ∧ validateField f r today .vnull
        = .fail "required" (strOr r.errorMessageRequired (decamel f ++ " is required"))
    ∧ validateField f r today .vundef
        = .fail "required" (strOr r.errorMessageRequired (decamel f ++ " is required")) := by
  refine ⟨fun s hs => ?_, ?_, ?_⟩
  · rw [validateField_string hty]
    simp [stringBranch, stringAbsent, hs, hreq, requiredMessage]
  · rw [validateField_string hty]
    simp [stringBranch, stringAbsent, hreq, requiredMessage]
  · rw [validateField_string hty]
    simp [stringBranch, stringAbsent, hreq, requiredMessage]

/-- Witness for C6: the required `currency` rule rejects a whitespace-only
string and `null` with its configured required message. -/
theorem c6_required_absence_witness :
    validateField "currency" currencyRule ⟨2025, 10, 12⟩ (.vstr "   ")
      = .fail "required" "Currency is required."
    ∧ validateField "currency" currencyRule ⟨2025, 10, 12⟩ .vnull
      = .fail "required" "Currency is required." := by
  have h := c6_required_absence "currency" currencyRule ⟨2025, 10, 12⟩ rfl rfl
  exact ⟨(h.1 "   " (by decide)).trans (by decide), h.2.1.trans (by decide)⟩

/-- Claim C8: a rule whose declared kind is not string, number, or date —
including the wire-format kind `boolean`, which has no dedicated branch —
compiles to a validator enforcing only required/absence semantics that
accepts every present value, and the unsupported kind is flagged with a
compile-time diagnostic. -/
theorem c8_unsupported_kind (f : String) (r : JsonRule) (today : CalDate)
    (defs : List (String × JsonRule)) (ty : String) (hty : r.type = some ty)
    (h1 : ty ≠ "string") (h2 : ty ≠ "number") (h3 : ty ≠ "date") (href : r.ref = none) :
    (∀ v, exactAbsent v = false → validateField f r today v = .ok)
    ∧ (∀ v, exactAbsent v = true → validateField f r today v
        = if r.required = some true then .fail "required" (requiredMessage f r) else .ok)
    ∧ compileField defs f r = (some r,
        ["Unsupported validation type \"" ++ ty ++ "\" for field \"" ++ f
          ++ "\". Using mixed()."]) := by
  have hne1 : r.type ≠ some "string" := by simp [hty, h1]
  have hne2 : r.type ≠ some "number" := by simp [hty, h2]
  have hne3 : r.type ≠ some "date" := by simp [hty, h3]
  refine ⟨fun v hv => ?_, fun v hv => ?_, ?_⟩
  · rw [validateField_default hne1 hne2 hne3]
    simp [defaultBranch, hv]
  · rw [validateField_default hne1 hne2 hne3]
    simp [defaultBranch, hv]
  · simp only [compileField, href, unsupportedWarn, hne1, hne2, hne3, showType, hty]
    simp [h1, h2, h3]

/-- Witness for C8: a `boolean`-kind rule accepts an arbitrary present value
even though it is required, and its compilation emits the unsupported-kind
warning. -/
theorem c8_unsupported_kind_witness :
    validateField "flag" booleanRule ⟨2025, 10, 12⟩ (.vstr "yes") = .ok
    ∧ compileField wireDefinitions "flag" booleanRule = (some booleanRule,
        ["Unsupported validation type \"boolean\" for field \"flag\". Using mixed()."]) := by
  have h := c8_unsupported_kind "flag" booleanRule ⟨2025, 10, 12⟩ wireDefinitions "boolean"
    rfl (by decide) (by decide) (by decide) rfl
  exact ⟨h.1 (.vstr "yes") (by decide), h.2.2.trans (by decide)⟩

/-- Claim C3: for every field rule carrying a `$ref` to a definition present
in the definitions mapping, the resolved rule equals the definition's
attributes copied first with every attribute explicitly present on the field
rule overwriting the corresponding definition attribute, and the `$ref`
marker is absent from the resolved rule. -/
theorem c3_ref_merge (defs : List (String × JsonRule)) (f : String) (r d : JsonRule)
    (refStr : String) (href : r.ref = some refStr) (hne : refStr ≠ "")
    (hd : lookupDef defs (stripRef refStr) = some d) :
    ∃ rr, (compileField defs f r).1 = some rr ∧ rr.ref = none
      ∧ mergesAttr r.type d.type rr.type
      ∧ mergesAttr r.required d.required rr.required
      ∧ mergesAttr r.minLength d.minLength rr.minLength
      ∧ mergesAttr r.maxLength d.maxLength rr.maxLength
      ∧ mergesAttr r.pattern d.pattern rr.pattern
      ∧ mergesAttr r.allowedValues d.allowedValues rr.allowedValues
      ∧ mergesAttr r.minValue d.minValue rr.minValue
      ∧ mergesAttr r.maxValue d.maxValue rr.maxValue
      ∧ mergesAttr r.customRule d.customRule rr.customRule
      ∧ mergesAttr r.minDate d.minDate rr.minDate
      ∧ mergesAttr r.errorMessageRequired d.errorMessageRequired rr.errorMessageRequired
      ∧ mergesAttr r.errorMessageMinLength d.errorMessageMinLength rr.errorMessageMinLength
      ∧ mergesAttr r.errorMessageMaxLength d.errorMessageMaxLength rr.errorMessageMaxLength
      ∧ mergesAttr r.errorMessagePattern d.errorMessagePattern rr.errorMessagePattern
      ∧ mergesAttr r.errorMessageAllowedValues d.errorMessageAllowedValues rr.errorMessageAllowedValues
      ∧ mergesAttr r.errorMessageType d.errorMessageType rr.errorMessageType
      ∧ mergesAttr r.errorMessageMinValue d.errorMessageMinValue rr.errorMessageMinValue
      ∧ mergesAttr r.errorMessageMaxValue d.errorMessageMaxValue rr.errorMessageMaxValue
      ∧ mergesAttr r.errorMessageMinDate d.errorMessageMinDate rr.errorMessageMinDate
      ∧ mergesAttr r.errorMessageCustomRule d.errorMessageCustomRule rr.errorMessageCustomRule := by
  refine ⟨mergeRule d r, by simp [compileField, href, hne, hd], rfl,
    jsOverride_merges _ _, jsOverride_merges _ _, jsOverride_merges _ _,
    jsOverride_merges _ _, jsOverride_merges _ _, jsOverride_merges _ _,
    jsOverride_merges _ _, jsOverride_merges _ _, jsOverride_merges _ _,
    jsOverride_merges _ _, jsOverride_merges _ _, jsOverride_merges _ _,
    jsOverride_merges _ _, jsOverride_merges _ _, jsOverride_merges _ _,
    jsOverride_merges _ _, jsOverride_merges _ _, jsOverride_merges _ _,
    jsOverride_merges _ _, jsOverride_merges _ _⟩

/-- Witness for C3: `beneficiaryName` references `nonEmptyString` and
overrides `maxLength`; the resolved rule keeps the definition's
`minLength: 1`, carries the override `maxLength: 100`, and has no `$ref`. -/
theorem c3_ref_merge_witness :
    ∃ rr, (compileField wireDefinitions "beneficiaryName" beneficiaryNameRule).1 = some rr
      ∧ rr.ref = none ∧ rr.maxLength = some 100 ∧ rr.minLength = some 1 := by
  obtain ⟨rr, h1, h2, hty, hreq, hminL, hmaxL, -⟩ :=
    c3_ref_merge wireDefinitions "beneficiaryName" beneficiaryNameRule nonEmptyStringDef
      "#/definitions/nonEmptyString" rfl (by decide) (by decide)
  refine ⟨rr, h1, h2, hmaxL.2 100 rfl, ?_⟩
  exact (hminL.1 rfl).trans rfl

/-- Claim C4: a field whose `$ref` names a definition absent from the
definitions mapping is omitted from the compiled mapping, a diagnostic is
emitted, compilation does not abort, and every other field of the document is
still compiled (the compiled mapping is exactly that of the document without
the offending field). -/
theorem c4_missing_definition (l1 l2 : List (String × JsonRule)) (f : String)
    (r : JsonRule) (refStr : String) (defs : List (String × JsonRule))
    (href : r.ref = some refStr) (hne : refStr ≠ "")
    (hmiss : lookupDef defs (stripRef refStr) = none) :
    (compileFields (l1 ++ (f, r) :: l2) defs).1 = (compileFields (l1 ++ l2) defs).1
    ∧ ("Validation definition not found for $ref: " ++ refStr)
        ∈ (compileFields (l1 ++ (f, r) :: l2) defs).2
    ∧ (f ∉ (l1 ++ l2).map Prod.fst
        → f ∉ ((compileFields (l1 ++ (f, r) :: l2) defs).1).map Prod.fst) := by
  have hcf : compileField defs f r
      = (none, ["Validation definition not found for $ref: " ++ refStr]) := by
    simp [compileField, href, hne, hmiss]
  have h1 := compileFields_skip_fst l1 l2 f r defs (by rw [hcf])
  refine ⟨h1, compileFields_diag_mem l1 l2 f r defs _ (by rw [hcf]; simp), ?_⟩
  intro hf hmem
  rw [h1] at hmem
  obtain ⟨⟨g, rr⟩, hmem2, hgf⟩ := List.mem_map.mp hmem
  obtain ⟨r0, h0⟩ := compileFields_keys_subset (l1 ++ l2) defs g rr hmem2
  exact hf (List.mem_map.mpr ⟨(g, r0), h0, hgf⟩)

/-- Witness for C4: a `ghost` field referencing `#/definitions/doesNotExist`
leaves a diagnostic and is absent from the compiled mapping, while
`routingNumber` and `memo` around it still compile. -/
theorem c4_missing_definition_witness :
    ("Validation definition not found for $ref: " ++ "#/definitions/doesNotExist")
      ∈ (compileFields ([("routingNumber", routingNumberRule)]
          ++ ("ghost", ghostRule) :: [("memo", memoRule)]) wireDefinitions).2
    ∧ "ghost" ∉ ((compileFields ([("routingNumber", routingNumberRule)]
          ++ ("ghost", ghostRule) :: [("memo", memoRule)]) wireDefinitions).1).map Prod.fst := by
  have h := c4_missing_definition [("routingNumber", routingNumberRule)]
    [("memo", memoRule)] "ghost" ghostRule "#/definitions/doesNotExist" wireDefinitions
    rfl (by decide) (by decide)
  exact ⟨h.2.1, h.2.2 (by decide)⟩

/-- Claim C5 (amended): for every string-field validator and every present
string value, the checks run in the order type check, then case-sensitive
`allowedValues` membership of the trimmed value (the whitelist runs among the
schema's internal tests), then `minLength` and `maxLength` against the
trimmed length, then `pattern` against the trimmed value; the first failing
check wins and short-circuits the rest.  The type check is satisfied by every
string value. -/
theorem c5_string_check_order (f : String) (r : JsonRule) (today : CalDate) (s : String)
    (hty : r.type = some "string") (hp : jsTrim s ≠ "") :
    (∀ l, r.allowedValues = some l → l.contains (jsTrim s) = false →
        validateField f r today (.vstr s) = .fail (stringTestName f)
          (replaceFirst (strOr r.errorMessageAllowedValues ("Must be one of: \x7ballowedValues\x7d"))
            ("\x7ballowedValues\x7d") (String.intercalate ", " l)))
    ∧ ((∀ l, r.allowedValues = some l → l.contains (jsTrim s) = true) →
        ∀ n, r.minLength = some n → (jsTrim s).length < n →
          validateField f r today (.vstr s) = .fail (stringTestName f)
            (replaceFirst (strOr r.errorMessageMinLength ("Minimum length is \x7bminLength\x7d"))
              ("\x7bminLength\x7d") (toString n)))
    ∧ ((∀ l, r.allowedValues = some l → l.contains (jsTrim s) = true) →
        (∀ n, r.minLength = some n → n ≤ (jsTrim s).length) →
        ∀ n, r.maxLength = some n → n < (jsTrim s).length →
          validateField f r today (.vstr s) = .fail (stringTestName f)
            (replaceFirst (strOr r.errorMessageMaxLength ("Maximum length is \x7bmaxLength\x7d"))
              ("\x7bmaxLength\x7d") (toString n)))
    ∧ ((∀ l, r.allowedValues = some l → l.contains (jsTrim s) = true) →
        (∀ n, r.minLength = some n → n ≤ (jsTrim s).length) →
        (∀ n, r.maxLength = some n → (jsTrim s).length ≤ n) →
        ∀ p, r.pattern = some p → p ≠ "" → regexMatchQ p (jsTrim s) = some false →
          validateField f r today (.vstr s)
            = .fail (stringTestName f) (strOr r.errorMessagePattern ("Invalid format")))
    ∧ ((∀ l, r.allowedValues = some l → l.contains (jsTrim s) = true) →
        (∀ n, r.minLength = some n → n ≤ (jsTrim s).length) →
        (∀ n, r.maxLength = some n → (jsTrim s).length ≤ n) →
        (∀ p, r.pattern = some p → p ≠ "" → regexMatchQ p (jsTrim s) ≠ some false) →
          validateField f r today (.vstr s) = .ok) := by
  have hv : validateField f r today (.vstr s) = runStringChecks f r (jsTrim s) :=
    (validateField_string hty).trans (stringBranch_present hp)
  refine ⟨fun l hl hc => ?_, fun hA n hn hlt => ?_, fun hA hMin n hn hlt => ?_,
    fun hA hMin hMax p hp2 hne hm => ?_, fun hA hMin hMax hPat => ?_⟩
  · rw [hv]
    unfold runStringChecks
    rw [stringFailMsg_oneOf (oneOfCheck_eq_some hl hc)]
  · rw [hv]
    unfold runStringChecks
    rw [stringFailMsg_minLen (oneOfCheck_eq_none hA) (minLenCheck_eq_some hn hlt)]
  · rw [hv]
    unfold runStringChecks
    rw [stringFailMsg_maxLen (oneOfCheck_eq_none hA) (minLenCheck_eq_none hMin)
      (maxLenCheck_eq_some hn hlt)]
  · rw [hv]
    unfold runStringChecks
    rw [stringFailMsg_pat (oneOfCheck_eq_none hA) (minLenCheck_eq_none hMin)
      (maxLenCheck_eq_none hMax) (patCheck_eq_some hp2 hne hm)]
  · rw [hv]
    unfold runStringChecks
    rw [stringFailMsg_none (oneOfCheck_eq_none hA) (minLenCheck_eq_none hMin)
      (maxLenCheck_eq_none hMax) (patCheck_eq_none hPat)]

/-- Witness for C5: on the `routingNumber` rule, an eight-digit value passes
everything up to the pattern check and fails there with the configured
message. -/
theorem c5_string_check_order_witness :
    validateField "routingNumber" routingNumberRule ⟨2025, 10, 12⟩ (.vstr "12345678")
      = .fail "is-string-and-valid-routingNumber" "Routing number must be exactly 9 digits." := by
  have h := c5_string_check_order "routingNumber" routingNumberRule ⟨2025, 10, 12⟩
    "12345678" rfl (by decide)
  have h4 := h.2.2.2.1 (fun l hl => nomatch hl) (fun n hn => nomatch hn)
    (fun n hn => nomatch hn) "^[0-9]\x7b9\x7d$" rfl (by decide) (by decide)
  exact h4.trans (by decide)

/-- Counterexample for C5 as stated: a value violating both `minLength` and
`allowedValues` fails on `allowedValues`, not on the length check the claim
places first. -/
theorem c5_allowed_values_first_counterexample :
    validateField "cur" mixedOrderRule ⟨2025, 10, 12⟩ (.vstr "EU")
      = .fail "is-string-and-valid-cur" "Must be one of: USD, CAD"
    ∧ validateField "cur" mixedOrderRule ⟨2025, 10, 12⟩ (.vstr "EU")
      ≠ .fail "is-string-and-valid-cur" "Minimum length is 5" := by decide

/-- Claim C9 (amended): for every constraint failure the rendered message is
the rule's matching `errorMessage*` template — falling back to a generic
default when no template is supplied — with the first occurrence of the
corresponding placeholder token replaced by that constraint's literal value
(`(maxLength)`/`(minLength)` by the number, `(allowedValues)` by the
comma-joined list, `(minValue)`/`(maxValue)` by the number's source text; the
required, type, pattern, minDate and customRule messages carry no
substitution and are used verbatim). -/
theorem c9_message_templating (f : String) (r : JsonRule) (today : CalDate) (s : String) :
    (r.type = some "string" → jsTrim s ≠ "" →
      ((∀ l, r.allowedValues = some l → l.contains (jsTrim s) = false →
          validateField f r today (.vstr s) = .fail (stringTestName f)
            (replaceFirst (strOr r.errorMessageAllowedValues ("Must be one of: \x7ballowedValues\x7d"))
              ("\x7ballowedValues\x7d") (String.intercalate ", " l)))
       ∧ ((∀ l, r.allowedValues = some l → l.contains (jsTrim s) = true) →
          ∀ n, r.minLength = some n → (jsTrim s).length < n →
            validateField f r today (.vstr s) = .fail (stringTestName f)
              (replaceFirst (strOr r.errorMessageMinLength ("Minimum length is \x7bminLength\x7d"))
                ("\x7bminLength\x7d") (toString n)))
       ∧ ((∀ l, r.allowedValues = some l → l.contains (jsTrim s) = true) →
          (∀ n, r.minLength = some n → n ≤ (jsTrim s).length) →
          ∀ n, r.maxLength = some n → n < (jsTrim s).length →
            validateField f r today (.vstr s) = .fail (stringTestName f)
              (replaceFirst (strOr r.errorMessageMaxLength ("Maximum length is \x7bmaxLength\x7d"))
                ("\x7bmaxLength\x7d") (toString n)))
       ∧ ((∀ l, r.allowedValues = some l → l.contains (jsTrim s) = true) →
          (∀ n, r.minLength = some n → n ≤ (jsTrim s).length) →
          (∀ n, r.maxLength = some n → (jsTrim s).length ≤ n) →
          ∀ p, r.pattern = some p → p ≠ "" → regexMatchQ p (jsTrim s) = some false →
            validateField f r today (.vstr s)
              = .fail (stringTestName f) (strOr r.errorMessagePattern ("Invalid format")))))
    ∧ (r.type = some "string" → r.required = some true → jsTrim s = "" →
        validateField f r today (.vstr s)
          = .fail "required" (strOr r.errorMessageRequired (decamel f ++ " is required")))
    ∧ (r.type ≠ some "string" → r.required = some true →
        validateField f r today (.vstr "")
          = .fail "required" (strOr r.errorMessageRequired (decamel f ++ " is required")))
    ∧ (r.type = some "number" → s ≠ "" →
      ((parseJsNumber s = none →
          validateField f r today (.vstr s)
            = .fail (numberTestName f) (strOr r.errorMessageType ("Must be a valid number")))
       ∧ (∀ q, parseJsNumber s = some q →
          ((∀ jn, r.minValue = some jn → q < jn.val →
              validateField f r today (.vstr s) = .fail (numberTestName f)
                (replaceFirst (strOr r.errorMessageMinValue ("Minimum value is \x7bminValue\x7d"))
                  ("\x7bminValue\x7d") jn.str))
           ∧ ((∀ jn, r.minValue = some jn → jn.val ≤ q) →
              ∀ jn, r.maxValue = some jn → jn.val < q →
                validateField f r today (.vstr s) = .fail (numberTestName f)
                  (replaceFirst (strOr r.errorMessageMaxValue ("Maximum value is \x7bmaxValue\x7d"))
                    ("\x7bmaxValue\x7d") jn.str))))))
    ∧ (r.type = some "date" → s ≠ "" →
      ((parseDate s = none →
          validateField f r today (.vstr s)
            = .fail (dateTestName f) (strOr r.errorMessageType ("Please enter a valid date.")))
       ∧ (∀ cal, parseDate s = some cal →
          ((r.customRule = some "noWeekendOrHoliday" →
              (isWeekendJS (.valid cal 0) || isPublicHoliday (.valid cal 0)) = true →
              validateField f r today (.vstr s) = .fail (dateTestName f)
                (strOr r.errorMessageCustomRule ("Date cannot be a weekend or public holiday.")))
           ∧ (¬(r.customRule = some "noWeekendOrHoliday"
                ∧ (isWeekendJS (.valid cal 0) || isPublicHoliday (.valid cal 0)) = true) →
              r.minDate = some "today" → dayNumber cal < dayNumber today →
              validateField f r today (.vstr s) = .fail (dateTestName f)
                (strOr r.errorMessageMinDate ("Date cannot be in the past."))))))) := by
  refine ⟨fun hty hp => ⟨fun l hl hc => ?_, fun hA n hn hlt => ?_,
      fun hA hMin n hn hlt => ?_, fun hA hMin hMax p hp2 hne hm => ?_⟩,
    fun hty hreq habs => ?_, fun hnes hreq => ?_,
    fun hty hs => ⟨fun hq => ?_, fun q hq => ⟨fun jn hj hlt => ?_, fun hMinOk jn hj hlt => ?_⟩⟩,
    fun hty hs => ⟨fun hq => ?_, fun cal hcal => ⟨fun hcr hw => ?_, fun hnc hmd hlt => ?_⟩⟩⟩
  · rw [(validateField_string hty).trans (stringBranch_present hp)]
    unfold runStringChecks
    rw [stringFailMsg_oneOf (oneOfCheck_eq_some hl hc)]
  · rw [(validateField_string hty).trans (stringBranch_present hp)]
    unfold runStringChecks
    rw [stringFailMsg_minLen (oneOfCheck_eq_none hA) (minLenCheck_eq_some hn hlt)]
  · rw [(validateField_string hty).trans (stringBranch_present hp)]
    unfold runStringChecks
    rw [stringFailMsg_maxLen (oneOfCheck_eq_none hA) (minLenCheck_eq_none hMin)
      (maxLenCheck_eq_some hn hlt)]
  · rw [(validateField_string hty).trans (stringBranch_present hp)]
    unfold runStringChecks
    rw [stringFailMsg_pat (oneOfCheck_eq_none hA) (minLenCheck_eq_none hMin)
      (maxLenCheck_eq_none hMax) (patCheck_eq_some hp2 hne hm)]
  · rw [validateField_string hty]
    simp [stringBranch, stringAbsent, habs, hreq, requiredMessage]
  · by_cases h2 : r.type = some "number"
    · rw [validateField_number h2]
      simp [numberBranch, exactAbsent, hreq, requiredMessage]
    · by_cases h3 : r.type = some "date"
      · rw [validateField_date h3]
        simp [dateBranch, exactAbsent, hreq, requiredMessage]
      · rw [validateField_default hnes h2 h3]
        simp [defaultBranch, exactAbsent, hreq, requiredMessage]
  · rw [(validateField_number hty).trans (numberBranch_present hs)]
    simp [runNumberChecks, hq]
  · rw [(validateField_number hty).trans (numberBranch_present hs)]
    unfold runNumberChecks
    simp only [hq]
    rw [minValCheck_eq_some hj hlt]
    rfl
  · rw [(validateField_number hty).trans (numberBranch_present hs)]
    unfold runNumberChecks
    simp only [hq]
    rw [minValCheck_eq_none hMinOk, maxValCheck_eq_some hj hlt]
    rfl
  · rw [(validateField_date hty).trans (dateBranch_present hs)]
    simp [runDateChecks, hq]
  · rw [(validateField_date hty).trans (dateBranch_present hs)]
    simp [runDateChecks, hcal, hcr, hw]
  · rw [(validateField_date hty).trans (dateBranch_present hs)]
    unfold runDateChecks
    simp only [hcal]
    rw [if_neg hnc, if_pos ⟨hmd, hlt⟩]

/-- Witness for C9: the 101-character round trip renders
`cannot exceed 100 characters`; the resolved `amount` rule renders its
placeholder-free minValue template verbatim on `0.00`; and `GBP` renders the
`currency` message with the comma-joined list substituted. -/
theorem c9_message_templating_witness :
    validateField "beneficiaryName" maxOnlyRule ⟨2025, 10, 12⟩
        (.vstr (String.mk (List.replicate 101 'a')))
      = .fail "is-string-and-valid-beneficiaryName" "cannot exceed 100 characters"
    ∧ validateField "amount" positiveAmountDef ⟨2025, 10, 12⟩ (.vstr "0.00")
      = .fail "is-number-and-valid-amount" "Amount must be greater than $0.00."
    ∧ validateField "currency" currencyRule ⟨2025, 10, 12⟩ (.vstr "GBP")
      = .fail "is-string-and-valid-currency" "Invalid currency. Allowed: USD, CAD, EUR." := by
  have h1 := c9_message_templating "beneficiaryName" maxOnlyRule ⟨2025, 10, 12⟩
    (String.mk (List.replicate 101 'a'))
  have h2 := c9_message_templating "amount" positiveAmountDef ⟨2025, 10, 12⟩ "0.00"
  have h3 := c9_message_templating "currency" currencyRule ⟨2025, 10, 12⟩ "GBP"
  refine ⟨?_, ?_, ?_⟩
  · exact ((h1.1 rfl (by decide)).2.2.1 (fun l hl => nomatch hl) (fun k hk => nomatch hk)
      100 rfl (by decide)).trans (by decide)
  · exact (((h2.2.2.2.1 rfl (by decide)).2 (mkRat 0 1) (by decide)).1 ⟨"0.01", mkRat 1 100⟩ rfl
      (by decide)).trans (by decide)
  · exact ((h3.1 rfl (by decide)).1 ["USD", "CAD", "EUR"] rfl (by decide)).trans (by decide)

/-- Counterexample for C9 as stated: when a template mentions its placeholder
twice, only the first occurrence is substituted, so not every token is
replaced. -/
theorem c9_each_token_counterexample :
    validateField "memo2" doubleTokenRule ⟨2025, 10, 12⟩ (.vstr "aaaa")
      = .fail "is-string-and-valid-memo2" "max 3 and \x7bmaxLength\x7d chars"
    ∧ validateField "memo2" doubleTokenRule ⟨2025, 10, 12⟩ (.vstr "aaaa")
      ≠ .fail "is-string-and-valid-memo2" "max 3 and 3 chars" := by decide

/-- Claim C7: a string rule whose pattern the `RegExp` constructor rejects
validates exactly as the same rule without a pattern (its other constraints
still run on every candidate value), a diagnostic is emitted whenever the
check runs on a present value, and the field still compiles. -/
theorem c7_invalid_pattern (f : String) (r : JsonRule) (today : CalDate) (p : String)
    (defs : List (String × JsonRule)) (hty : r.type = some "string")
    (hp : r.pattern = some p) (hne : p ≠ "") (hbad : compileRegex p = none)
    (href : r.ref = none) :
    (∀ v, validateField f r today v = validateField f { r with pattern := none } today v)
    ∧ (∀ s, jsTrim s ≠ "" → ("Invalid regex pattern for field " ++ f ++ ": " ++ p)
        ∈ validateDiag f r (.vstr s))
    ∧ compileField defs f r = (some r, []) := by
  have hty2 : ({ r with pattern := none } : JsonRule).type = some "string" := hty
  refine ⟨fun v => ?_, fun s hs => ?_, ?_⟩
  · rw [validateField_string hty, validateField_string hty2]
    cases v with
    | vnull => rfl
    | vundef => rfl
    | vstr s =>
        by_cases habs : jsTrim s = ""
        · have e1 : stringBranch f r (.vstr s)
              = if r.required = some true then .fail "required" (requiredMessage f r) else .ok := by
            simp [stringBranch, stringAbsent, habs]
          have e2 : stringBranch f { r with pattern := none } (.vstr s)
              = if r.required = some true then .fail "required" (requiredMessage f r) else .ok := by
            simp [stringBranch, stringAbsent, habs, requiredMessage]
          exact e1.trans e2.symm
        · rw [stringBranch_present habs, stringBranch_present habs]
          unfold runStringChecks
          have hpc : patCheck r (jsTrim s) = none := by
            simp [patCheck, hp, hne, regexMatchQ, hbad]
          have hpc2 : patCheck { r with pattern := none } (jsTrim s) = none := rfl
          have ho : oneOfCheck { r with pattern := none } (jsTrim s)
              = oneOfCheck r (jsTrim s) := rfl
          have hmi : minLenCheck { r with pattern := none } (jsTrim s)
              = minLenCheck r (jsTrim s) := rfl
          have hma : maxLenCheck { r with pattern := none } (jsTrim s)
              = maxLenCheck r (jsTrim s) := rfl
          unfold stringFailMsg
          rw [hpc, hpc2, ho, hmi, hma]
  · simp [validateDiag, hty, stringAbsent, hs, patDiag, hp, hne, hbad]
  · simp [compileField, href, unsupportedWarn, hty]

/-- Witness for C7: the unclosed-class pattern is skipped with a diagnostic
while the rule's maxLength still rejects a three-character value, and the
field compiles without compile-time diagnostics. -/
theorem c7_invalid_pattern_witness :
    validateField "acct" invalidPatternRule ⟨2025, 10, 12⟩ (.vstr "abc")
      = validateField "acct" { invalidPatternRule with pattern := none } ⟨2025, 10, 12⟩ (.vstr "abc")
    ∧ ("Invalid regex pattern for field " ++ "acct" ++ ": " ++ "[")
        ∈ validateDiag "acct" invalidPatternRule (.vstr "abc")
    ∧ compileField wireDefinitions "acct" invalidPatternRule = (some invalidPatternRule, []) := by
  have h := c7_invalid_pattern "acct" invalidPatternRule ⟨2025, 10, 12⟩ "["
    wireDefinitions rfl rfl (by decide) (by decide) rfl
  exact ⟨h.1 (.vstr "abc"), h.2.1 "abc" (by decide), h.2.2⟩

/-- Claim C2 (amended): every compiled validator returns a structured outcome
for every candidate value — never an exception — and a failure's kind is the
name of the failing yup test: `required` for absence failures, or the
per-field composite test name (`is-string-and-valid-<field>`,
`is-number-and-valid-<field>`, `is-date-and-valid-<field>`); the specific
constraint that failed is identified by the message, not the kind. -/
theorem c2_failure_kinds (f : String) (r : JsonRule) (today : CalDate) (v : Value)
    (k m : String) (h : validateField f r today v = .fail k m) :
    k = "required" ∨ k = stringTestName f ∨ k = numberTestName f ∨ k = dateTestName f := by
  unfold validateField at h
  split_ifs at h with h1 h2 h3
  · rcases stringBranch_kinds h with hk | hk
    · exact Or.inl hk
    · exact Or.inr (Or.inl hk)
  · rcases numberBranch_kinds h with hk | hk
    · exact Or.inl hk
    · exact Or.inr (Or.inr (Or.inl hk))
  · rcases dateBranch_kinds h with hk | hk
    · exact Or.inl hk
    · exact Or.inr (Or.inr (Or.inr hk))
  · exact Or.inl (defaultBranch_kinds h)

/-- Witness for C2: the pattern failure of `routingNumber` carries its
composite string test name. -/
theorem c2_failure_kinds_witness :
    "is-string-and-valid-routingNumber" = "required"
    ∨ "is-string-and-valid-routingNumber" = stringTestName "routingNumber"
    ∨ "is-string-and-valid-routingNumber" = numberTestName "routingNumber"
    ∨ "is-string-and-valid-routingNumber" = dateTestName "routingNumber" :=
  c2_failure_kinds "routingNumber" routingNumberRule ⟨2025, 10, 12⟩ (.vstr "12345678")
    "is-string-and-valid-routingNumber" "Routing number must be exactly 9 digits." (by decide)

/-- Counterexample for C2 as stated: a pattern failure's kind is the composite
per-field test name, which is none of the ten constraint names the claim
requires. -/
theorem c2_specific_kind_counterexample :
    validateField "routingNumber" routingNumberRule ⟨2025, 10, 12⟩ (.vstr "12345678")
      = .fail "is-string-and-valid-routingNumber" "Routing number must be exactly 9 digits."
    ∧ "is-string-and-valid-routingNumber" ∉
        (["required", "type", "minLength", "maxLength", "pattern", "allowedValues",
          "minValue", "maxValue", "minDate", "customRule"] : List String) := by decide

/-- Claim C1 (amended): for every date-field validator whose resolved rule has
both `minDate: "today"` and `customRule: "noWeekendOrHoliday"`, a successfully
parsed value is checked against `customRule` first and `minDate` second with
the first failure winning: a value that is both earlier than the current date
and a weekend or holiday yields the customRule failure, and a value equal to
today itself satisfies the minDate check (ties allowed). -/
theorem c1_date_rule_order (f : String) (r : JsonRule) (today : CalDate) (s : String)
    (cal : CalDate) (hty : r.type = some "date") (hmd : r.minDate = some "today")
    (hcr : r.customRule = some "noWeekendOrHoliday") (hs : s ≠ "")
    (hparse : parseDate s = some cal) :
    ((isWeekendJS (.valid cal 0) || isPublicHoliday (.valid cal 0)) = true →
        validateField f r today (.vstr s) = .fail (dateTestName f)
          (strOr r.errorMessageCustomRule ("Date cannot be a weekend or public holiday.")))
    ∧ ((isWeekendJS (.valid cal 0) || isPublicHoliday (.valid cal 0)) = false →
        dayNumber cal < dayNumber today →
        validateField f r today (.vstr s) = .fail (dateTestName f)
          (strOr r.errorMessageMinDate ("Date cannot be in the past.")))
    ∧ ((isWeekendJS (.valid cal 0) || isPublicHoliday (.valid cal 0)) = false →
        dayNumber today ≤ dayNumber cal →
        validateField f r today (.vstr s) = .ok) := by
  have hv : validateField f r today (.vstr s) = runDateChecks f r today s :=
    (validateField_date hty).trans (dateBranch_present hs)
  refine ⟨fun hw => ?_, fun hw hlt => ?_, fun hw hge => ?_⟩
  · rw [hv]
    simp [runDateChecks, hparse, hcr, hw]
  · rw [hv]
    simp [runDateChecks, hparse, hcr, hw, hmd, hlt]
  · rw [hv]
    simp [runDateChecks, hparse, hcr, hw, hmd, not_lt.mpr hge]

/-- Witness for C1: with today = Tuesday 2025-10-14, the holiday Monday
2025-10-13 fails on the custom rule, and today itself passes (ties
allowed). -/
theorem c1_date_rule_order_witness :
    validateField "transferDate" validDateDef ⟨2025, 10, 14⟩ (.vstr "2025-10-13")
      = .fail "is-date-and-valid-transferDate" "Transfer date cannot be a weekend or public holiday."
    ∧ validateField "transferDate" validDateDef ⟨2025, 10, 14⟩ (.vstr "2025-10-14") = .ok := by
  have h := c1_date_rule_order "transferDate" validDateDef ⟨2025, 10, 14⟩ "2025-10-13"
    ⟨2025, 10, 13⟩ rfl rfl rfl (by decide) (by decide)
  have h2 := c1_date_rule_order "transferDate" validDateDef ⟨2025, 10, 14⟩ "2025-10-14"
    ⟨2025, 10, 14⟩ rfl rfl rfl (by decide) (by decide)
  exact ⟨(h.1 (by decide)).trans (by decide), h2.2.2 (by decide) (by decide)⟩

/-- Counterexample for C1 as stated: Saturday 2025-10-04 is both earlier than
today (2025-10-12) and a weekend, yet the validator reports the customRule
failure, not the minDate failure the claim requires to win. -/
theorem c1_min_date_first_counterexample :
    validateField "transferDate" validDateDef ⟨2025, 10, 12⟩ (.vstr "2025-10-04")
      = .fail "is-date-and-valid-transferDate" "Transfer date cannot be a weekend or public holiday."
    ∧ validateField "transferDate" validDateDef ⟨2025, 10, 12⟩ (.vstr "2025-10-04")
      ≠ .fail "is-date-and-valid-transferDate" "Transfer date cannot be in the past."
    ∧ dayNumber ⟨2025, 10, 4⟩ < dayNumber ⟨2025, 10, 12⟩
    ∧ isWeekendJS (.valid ⟨2025, 10, 4⟩ 0) = true := by decide

end WireSpec
